import Mathlib

/-!
Verification development for the in-memory entity store of the storefront
repository (`src/server/storage.ts`, class `MemStorage`).

Modelling conventions:
* JS `Map<number, Entity>` becomes a `List Entity` kept in insertion order;
  `map.set` replaces in place when the key is present and appends otherwise,
  `map.get` is `find?` on the id, `map.delete` removes the entry and reports
  whether it was present — exactly the observable behaviour of a JS `Map`
  whose keys are the entities' ids.
* JS numbers used as identifiers, prices, quantities and totals are `Int`
  (no arithmetic is performed on prices/totals by the store, so the exact
  numeric representation is irrelevant to the properties proved here).
* `Date` values are `Nat` milliseconds; every operation that calls
  `new Date()` / `Date.now()` takes the current time as an explicit `now`
  argument.
* `undefined`-able (absent) keys of a TS `Partial<Entity>` become `Option`
  fields; a nullable entity field becomes `Option` in the entity, so a
  partial-update key for it is `Option (Option _)` (`some none` = explicit
  `null`, `none` = key absent).
* The TS method that can throw (`updateStripeCustomerId`) returns `Except`;
  all other operations return their value (with `Option` for the
  "not found" sentinel `undefined`) paired with the successor state.
-/

namespace Storage

/-- `User` entity (fields as constructed in `storage.ts`). -/
structure User where
  id : Int
  username : String
  password : String
  email : String
  name : String
  role : String
  createdAt : Nat
deriving DecidableEq

/-- `Store` entity. -/
structure Store where
  id : Int
  name : String
  slug : Option String
  logoUrl : Option String
  whatsappNumber : String
  instagramUrl : Option String
  facebookUrl : Option String
  showSocialMedia : Bool
  active : Bool
  createdAt : Nat
  updatedAt : Nat
  templateId : Option Int
deriving DecidableEq

/-- `Category` entity. -/
structure Category where
  id : Int
  name : String
  storeId : Int
  createdAt : Nat
deriving DecidableEq

/-- `Product` entity. -/
structure Product where
  id : Int
  name : String
  price : Int
  description : Option String
  imageUrl : Option String
  storeId : Int
  categoryId : Option Int
  active : Bool
  createdAt : Nat
  updatedAt : Nat
deriving DecidableEq

/-- `ShopOwner` entity. -/
structure ShopOwner where
  id : Int
  userId : Int
  storeId : Int
  subscriptionStatus : String
  subscriptionExpiresAt : Option Nat
  stripeCustomerId : Option String
  stripePriceId : Option String
  stripeSubscriptionId : Option String
deriving DecidableEq

/-- `Customer` entity. -/
structure Customer where
  id : Int
  userId : Int
  address : Option String
  phone : Option String
deriving DecidableEq

/-- `Cart` entity. -/
structure Cart where
  id : Int
  customerId : Int
  storeId : Int
  createdAt : Nat
  updatedAt : Nat
deriving DecidableEq

/-- `CartItem` entity. -/
structure CartItem where
  id : Int
  cartId : Int
  productId : Int
  quantity : Int
deriving DecidableEq

/-- `Order` entity. -/
structure Order where
  id : Int
  storeId : Int
  customerId : Option Int
  customerName : String
  customerPhone : Option String
  customerAddress : Option String
  deliveryMethod : String
  notes : Option String
  total : Int
  whatsappSent : Bool
  createdAt : Nat
deriving DecidableEq

/-- `OrderItem` entity (snapshot of product name and price at order time). -/
structure OrderItem where
  id : Int
  orderId : Int
  productName : String
  price : Int
  quantity : Int
deriving DecidableEq

/-- Modelled from the spec: the `@shared/schema` module defining the insert
types is not among the sources; field set follows the spec's data-model table
(§3) and the fields `createProduct` actually reads. `active` is included as an
optional insert key so that inputs may explicitly supply `active = false`. -/
structure InsertProduct where
  name : String
  price : Int
  description : Option String
  imageUrl : Option String
  storeId : Int
  categoryId : Option Int
  active : Option Bool
deriving DecidableEq

/-- Modelled from the spec: insert type for `Store` (schema module absent),
fields per spec §3 and the fields `createStore` reads. -/
structure InsertStore where
  name : String
  slug : Option String
  logoUrl : Option String
  whatsappNumber : String
  instagramUrl : Option String
  facebookUrl : Option String
  showSocialMedia : Bool
  active : Option Bool
  templateId : Option Int
deriving DecidableEq

/-- Insert type for `Cart` (fields read by `createCart`). -/
structure InsertCart where
  customerId : Int
  storeId : Int
deriving DecidableEq

/-- Insert type for `CartItem` (fields read by `createCartItem`). -/
structure InsertCartItem where
  cartId : Int
  productId : Int
  quantity : Int
deriving DecidableEq

/-- Insert type for `OrderItem` (fields read by `createOrderItem`). -/
structure InsertOrderItem where
  orderId : Int
  productName : String
  price : Int
  quantity : Int
deriving DecidableEq

/-- `Partial<Category>`: every key optional (`none` = key absent). -/
structure CategoryPatch where
  id : Option Int := none
  name : Option String := none
  storeId : Option Int := none
  createdAt : Option Nat := none
deriving DecidableEq

/-- `Partial<User>`. -/
structure UserPatch where
  id : Option Int := none
  username : Option String := none
  password : Option String := none
  email : Option String := none
  name : Option String := none
  role : Option String := none
  createdAt : Option Nat := none
deriving DecidableEq

/-- `Partial<Customer>`. -/
structure CustomerPatch where
  id : Option Int := none
  userId : Option Int := none
  address : Option (Option String) := none
  phone : Option (Option String) := none
deriving DecidableEq

/-- `Partial<ShopOwner>`. -/
structure ShopOwnerPatch where
  id : Option Int := none
  userId : Option Int := none
  storeId : Option Int := none
  subscriptionStatus : Option String := none
  subscriptionExpiresAt : Option (Option Nat) := none
  stripeCustomerId : Option (Option String) := none
  stripePriceId : Option (Option String) := none
  stripeSubscriptionId : Option (Option String) := none
deriving DecidableEq

/-- `Partial<Product>`: every key of `Product` is optional, including the
keys (`id`, `storeId`, `createdAt`, `updatedAt`) that `updateProduct` does
not copy into its normalized merge object. -/
structure ProductPatch where
  id : Option Int := none
  name : Option String := none
  price : Option Int := none
  description : Option (Option String) := none
  imageUrl : Option (Option String) := none
  storeId : Option Int := none
  categoryId : Option (Option Int) := none
  active : Option Bool := none
  createdAt : Option Nat := none
  updatedAt : Option Nat := none
deriving DecidableEq

/-- `Partial<Store>`. -/
structure StorePatch where
  id : Option Int := none
  name : Option String := none
  slug : Option (Option String) := none
  logoUrl : Option (Option String) := none
  whatsappNumber : Option String := none
  instagramUrl : Option (Option String) := none
  facebookUrl : Option (Option String) := none
  showSocialMedia : Option Bool := none
  active : Option Bool := none
  createdAt : Option Nat := none
  updatedAt : Option Nat := none
  templateId : Option (Option Int) := none
deriving DecidableEq

/-- The whole `MemStorage` state: one insertion-ordered collection and one
id counter per entity kind (the `sessionStore` field is external plumbing
and carries no entity state). -/
structure State where
  users : List User
  stores : List Store
  categories : List Category
  products : List Product
  shopOwners : List ShopOwner
  customers : List Customer
  carts : List Cart
  cartItems : List CartItem
  orders : List Order
  orderItems : List OrderItem
  userId : Int
  storeId : Int
  categoryId : Int
  productId : Int
  shopOwnerId : Int
  customerId : Int
  cartId : Int
  cartItemId : Int
  orderId : Int
  orderItemId : Int
deriving DecidableEq

/-- `map.get(k)`: first entry whose id is `k`. -/
def mapGet {α : Type} (idOf : α → Int) (m : List α) (k : Int) : Option α :=
  m.find? (fun x => idOf x == k)

/-- `map.set(k, v)`: replace in place when the key is present, else append
(JS `Map` keeps the original insertion position on overwrite). -/
def mapSet {α : Type} (idOf : α → Int) (m : List α) (k : Int) (v : α) : List α :=
  if (m.find? (fun x => idOf x == k)).isSome then
    m.map (fun x => if idOf x == k then v else x)
  else
    m ++ [v]

/-- `map.delete(k)`: remove the entry, report whether it was present. -/
def mapDelete {α : Type} (idOf : α → Int) (m : List α) (k : Int) : List α × Bool :=
  (m.filter (fun x => !(idOf x == k)), (m.find? (fun x => idOf x == k)).isSome)

/-- JS `s || null` for a nullable string: `null`/`undefined`/`""` all
collapse to `null`. -/
def jsStrOrNull (o : Option String) : Option String :=
  match o with
  | some x => if x = "" then none else some x
  | none => none

/-- JS `n || null` for a nullable number: `null`/`undefined`/`0` collapse
to `null`. -/
def jsIntOrNull (o : Option Int) : Option Int :=
  match o with
  | some x => if x = 0 then none else some x
  | none => none

/-- `MemStorage` constructor, lines 155–179: all maps empty, every id
counter initialized to 1 (the subsequent demo seeding, lines 186–370, is a
sequence of ordinary id-consuming insertions and is not part of the counter
initialization these lines perform). -/
def initState : State where
  users := []
  stores := []
  categories := []
  products := []
  shopOwners := []
  customers := []
  carts := []
  cartItems := []
  orders := []
  orderItems := []
  userId := 1
  storeId := 1
  categoryId := 1
  productId := 1
  shopOwnerId := 1
  customerId := 1
  cartId := 1
  cartItemId := 1
  orderId := 1
  orderItemId := 1

/-- `getUser(id)`. -/
def getUser (s : State) (id : Int) : Option User :=
  mapGet User.id s.users id

/-- `getShopOwnerByUserId(userId)`: linear scan for the first `ShopOwner`
with the given `userId`. -/
def getShopOwnerByUserId (s : State) (userId : Int) : Option ShopOwner :=
  s.shopOwners.find? (fun owner => owner.userId == userId)

/-- `getProduct(id)`. -/
def getProduct (s : State) (id : Int) : Option Product :=
  mapGet Product.id s.products id

/-- `getProducts(storeId?)`: the guard `if (storeId)` is a JS truthiness
test, so the filter is applied only when the argument is present and
nonzero; `getProducts(0)` falls through to the unfiltered list. -/
def getProducts (s : State) (storeId : Option Int) : List Product :=
  match storeId with
  | some sid =>
      if sid == 0 then s.products
      else s.products.filter (fun p => p.storeId == sid)
  | none => s.products

/-- `createProduct(product)`: assigns the next id, defaults `description`
and `imageUrl` with `|| null`, and sets `active: true` AFTER spreading the
input, overriding any supplied value. -/
def createProduct (s : State) (inp : InsertProduct) (now : Nat) : Product × State :=
  let id := s.productId
  let newProduct : Product :=
    { id := id
      name := inp.name
      price := inp.price
      description := jsStrOrNull inp.description
      imageUrl := jsStrOrNull inp.imageUrl
      storeId := inp.storeId
      categoryId := inp.categoryId
      active := true
      createdAt := now
      updatedAt := now }
  (newProduct,
   { s with products := mapSet Product.id s.products id newProduct
            productId := s.productId + 1 })

/-- `updateProduct(id, product)`: builds a normalized object holding only
the keys `name, price, description, imageUrl, active, categoryId` that are
present (`!== undefined`) in the partial, spreads it over the existing
record and stamps `updatedAt`; the partial's `id`, `storeId`, `createdAt`
and `updatedAt` keys are never copied. -/
def updateProduct (s : State) (id : Int) (p : ProductPatch) (now : Nat) :
    Option Product × State :=
  match mapGet Product.id s.products id with
  | none => (none, s)
  | some existing =>
      let updated : Product :=
        { id := existing.id
          name := p.name.getD existing.name
          price := p.price.getD existing.price
          description := p.description.getD existing.description
          imageUrl := p.imageUrl.getD existing.imageUrl
          storeId := existing.storeId
          categoryId := p.categoryId.getD existing.categoryId
          active := p.active.getD existing.active
          createdAt := existing.createdAt
          updatedAt := now }
      (some updated, { s with products := mapSet Product.id s.products id updated })

/-- `deleteProduct(id)`. -/
def deleteProduct (s : State) (id : Int) : Bool × State :=
  let r := mapDelete Product.id s.products id
  (r.2, { s with products := r.1 })

/-- `createStore(store)`: next id, `slug`/`templateId` defaulted with
`|| null`, `active: true` set after the spread. -/
def createStore (s : State) (inp : InsertStore) (now : Nat) : Store × State :=
  let id := s.storeId
  let newStore : Store :=
    { id := id
      name := inp.name
      slug := jsStrOrNull inp.slug
      logoUrl := inp.logoUrl
      whatsappNumber := inp.whatsappNumber
      instagramUrl := inp.instagramUrl
      facebookUrl := inp.facebookUrl
      showSocialMedia := inp.showSocialMedia
      active := true
      createdAt := now
      updatedAt := now
      templateId := jsIntOrNull inp.templateId }
  (newStore,
   { s with stores := mapSet Store.id s.stores id newStore
            storeId := s.storeId + 1 })

/-- `updateStore(id, store)`: normalized merge of the keys `name, slug,
whatsappNumber, logoUrl, instagramUrl, facebookUrl, showSocialMedia,
active, templateId` that are present in the partial, then `updatedAt` is
stamped; the partial's `id`, `createdAt`, `updatedAt` keys are never
copied. -/
def updateStore (s : State) (id : Int) (p : StorePatch) (now : Nat) :
    Option Store × State :=
  match mapGet Store.id s.stores id with
  | none => (none, s)
  | some existing =>
      let updated : Store :=
        { id := existing.id
          name := p.name.getD existing.name
          slug := p.slug.getD existing.slug
          logoUrl := p.logoUrl.getD existing.logoUrl
          whatsappNumber := p.whatsappNumber.getD existing.whatsappNumber
          instagramUrl := p.instagramUrl.getD existing.instagramUrl
          facebookUrl := p.facebookUrl.getD existing.facebookUrl
          showSocialMedia := p.showSocialMedia.getD existing.showSocialMedia
          active := p.active.getD existing.active
          createdAt := existing.createdAt
          updatedAt := now
          templateId := p.templateId.getD existing.templateId }
      (some updated, { s with stores := mapSet Store.id s.stores id updated })

/-- `updateCategory(id, category)`: plain spread `{...existing, ...patch}`
(every present key is copied), stored back under the same key. -/
def updateCategory (s : State) (id : Int) (c : CategoryPatch) :
    Option Category × State :=
  match mapGet Category.id s.categories id with
  | none => (none, s)
  | some existing =>
      let updated : Category :=
        { id := c.id.getD existing.id
          name := c.name.getD existing.name
          storeId := c.storeId.getD existing.storeId
          createdAt := c.createdAt.getD existing.createdAt }
      (some updated, { s with categories := mapSet Category.id s.categories id updated })

/-- `updateUser(id, user)`: plain spread merge. -/
def updateUser (s : State) (id : Int) (u : UserPatch) : Option User × State :=
  match mapGet User.id s.users id with
  | none => (none, s)
  | some existing =>
      let updated : User :=
        { id := u.id.getD existing.id
          username := u.username.getD existing.username
          password := u.password.getD existing.password
          email := u.email.getD existing.email
          name := u.name.getD existing.name
          role := u.role.getD existing.role
          createdAt := u.createdAt.getD existing.createdAt }
      (some updated, { s with users := mapSet User.id s.users id updated })

/-- `updateCustomer(id, customer)`: plain spread merge. -/
def updateCustomer (s : State) (id : Int) (c : CustomerPatch) :
    Option Customer × State :=
  match mapGet Customer.id s.customers id with
  | none => (none, s)
  | some existing =>
      let updated : Customer :=
        { id := c.id.getD existing.id
          userId := c.userId.getD existing.userId
          address := c.address.getD existing.address
          phone := c.phone.getD existing.phone }
      (some updated, { s with customers := mapSet Customer.id s.customers id updated })

/-- `updateShopOwnerSubscription(id, data)`: plain spread merge. -/
def updateShopOwnerSubscription (s : State) (id : Int) (d : ShopOwnerPatch) :
    Option ShopOwner × State :=
  match mapGet ShopOwner.id s.shopOwners id with
  | none => (none, s)
  | some existing =>
      let updated : ShopOwner :=
        { id := d.id.getD existing.id
          userId := d.userId.getD existing.userId
          storeId := d.storeId.getD existing.storeId
          subscriptionStatus := d.subscriptionStatus.getD existing.subscriptionStatus
          subscriptionExpiresAt := d.subscriptionExpiresAt.getD existing.subscriptionExpiresAt
          stripeCustomerId := d.stripeCustomerId.getD existing.stripeCustomerId
          stripePriceId := d.stripePriceId.getD existing.stripePriceId
          stripeSubscriptionId := d.stripeSubscriptionId.getD existing.stripeSubscriptionId }
      (some updated, { s with shopOwners := mapSet ShopOwner.id s.shopOwners id updated })

/-- `createCart(cart)`. -/
def createCart (s : State) (inp : InsertCart) (now : Nat) : Cart × State :=
  let id := s.cartId
  let newCart : Cart :=
    { id := id
      customerId := inp.customerId
      storeId := inp.storeId
      createdAt := now
      updatedAt := now }
  (newCart,
   { s with carts := mapSet Cart.id s.carts id newCart
            cartId := s.cartId + 1 })

/-- `deleteCart(id)`: first deletes, by their own ids, all cart items whose
`cartId` matches (an item survives iff no matching item shares its id),
then deletes the cart itself and returns that deletion's result. -/
def deleteCart (s : State) (id : Int) : Bool × State :=
  let remaining :=
    s.cartItems.filter
      (fun x => !(s.cartItems.any (fun it => it.cartId == id && it.id == x.id)))
  let r := mapDelete Cart.id s.carts id
  (r.2, { s with cartItems := remaining, carts := r.1 })

/-- `createCartItem(cartItem)`: inserts the item, then refreshes the owning
cart's `updatedAt` when that cart exists (the cart lookup reads the cart
map, which the item insertion leaves untouched, so it is a lookup in
`s.carts`). -/
def createCartItem (s : State) (inp : InsertCartItem) (now : Nat) :
    CartItem × State :=
  match mapGet Cart.id s.carts inp.cartId with
  | none =>
      ({ id := s.cartItemId, cartId := inp.cartId,
         productId := inp.productId, quantity := inp.quantity },
       { s with
           cartItems := mapSet CartItem.id s.cartItems s.cartItemId
             { id := s.cartItemId, cartId := inp.cartId,
               productId := inp.productId, quantity := inp.quantity }
           cartItemId := s.cartItemId + 1 })
  | some cart =>
      ({ id := s.cartItemId, cartId := inp.cartId,
         productId := inp.productId, quantity := inp.quantity },
       { s with
           cartItems := mapSet CartItem.id s.cartItems s.cartItemId
             { id := s.cartItemId, cartId := inp.cartId,
               productId := inp.productId, quantity := inp.quantity }
           cartItemId := s.cartItemId + 1
           carts := mapSet Cart.id s.carts cart.id { cart with updatedAt := now } })

/-- `deleteCartItem(id)`: absent item returns `false` before any mutation;
otherwise refreshes the owning cart's `updatedAt` when that cart exists
(the refresh does not touch the cart-item map) and then deletes the item,
returning that deletion's result. -/
def deleteCartItem (s : State) (id : Int) (now : Nat) : Bool × State :=
  match mapGet CartItem.id s.cartItems id with
  | none => (false, s)
  | some item =>
      match mapGet Cart.id s.carts item.cartId with
      | none =>
          ((mapDelete CartItem.id s.cartItems id).2,
           { s with cartItems := (mapDelete CartItem.id s.cartItems id).1 })
      | some cart =>
          ((mapDelete CartItem.id s.cartItems id).2,
           { s with
               cartItems := (mapDelete CartItem.id s.cartItems id).1
               carts := mapSet Cart.id s.carts cart.id { cart with updatedAt := now } })

/-- `updateCartItem(id, quantity)`: absent item returns the sentinel before
any mutation; otherwise sets the quantity and refreshes the owning cart's
`updatedAt` when that cart exists. -/
def updateCartItem (s : State) (id : Int) (quantity : Int) (now : Nat) :
    Option CartItem × State :=
  match mapGet CartItem.id s.cartItems id with
  | none => (none, s)
  | some existing =>
      let updated : CartItem := { existing with quantity := quantity }
      let s1 : State := { s with cartItems := mapSet CartItem.id s.cartItems id updated }
      match mapGet Cart.id s1.carts existing.cartId with
      | none => (some updated, s1)
      | some cart =>
          (some updated,
           { s1 with carts := mapSet Cart.id s1.carts cart.id { cart with updatedAt := now } })

/-- `updateOrderWhatsappStatus(id, sent)`. -/
def updateOrderWhatsappStatus (s : State) (id : Int) (sent : Bool) :
    Option Order × State :=
  match mapGet Order.id s.orders id with
  | none => (none, s)
  | some existing =>
      let updated : Order := { existing with whatsappSent := sent }
      (some updated, { s with orders := mapSet Order.id s.orders id updated })

/-- `createOrderItem(orderItem)`: next id, snapshot fields stored verbatim
from the input. -/
def createOrderItem (s : State) (inp : InsertOrderItem) : OrderItem × State :=
  let id := s.orderItemId
  let newItem : OrderItem :=
    { id := id
      orderId := inp.orderId
      productName := inp.productName
      price := inp.price
      quantity := inp.quantity }
  (newItem,
   { s with orderItems := mapSet OrderItem.id s.orderItems id newItem
            orderItemId := s.orderItemId + 1 })

/-- Modelled from the spec: insert type for `User` (schema module absent),
fields per spec §3 and the fields `createUser` reads. -/
structure InsertUser where
  username : String
  password : String
  email : String
  name : String
  role : String
deriving DecidableEq

/-- Insert type for `Category` (fields read by `createCategory`). -/
structure InsertCategory where
  name : String
  storeId : Int
deriving DecidableEq

/-- Modelled from the spec: insert type for `ShopOwner` (schema module
absent), fields per spec §3 and the fields `createShopOwner` reads. -/
structure InsertShopOwner where
  userId : Int
  storeId : Int
  subscriptionStatus : String
  subscriptionExpiresAt : Option Nat
deriving DecidableEq

/-- Modelled from the spec: insert type for `Customer` (schema module
absent), fields per spec §3 and the fields `createCustomer` reads. -/
structure InsertCustomer where
  userId : Int
  address : Option String
  phone : Option String
deriving DecidableEq

/-- Modelled from the spec: insert type for `Order` (schema module absent),
fields per spec §3 and the fields `createOrder` reads. -/
structure InsertOrder where
  storeId : Int
  customerId : Option Int
  customerName : String
  customerPhone : Option String
  customerAddress : Option String
  deliveryMethod : String
  notes : Option String
  total : Int
deriving DecidableEq

/-- `createUser(user)`: next id, `createdAt` stamped, all other fields from
the spread input. -/
def createUser (s : State) (inp : InsertUser) (now : Nat) : User × State :=
  let id := s.userId
  let newUser : User :=
    { id := id
      username := inp.username
      password := inp.password
      email := inp.email
      name := inp.name
      role := inp.role
      createdAt := now }
  (newUser,
   { s with users := mapSet User.id s.users id newUser
            userId := s.userId + 1 })

/-- `createCategory(category)`: next id, `createdAt` stamped. -/
def createCategory (s : State) (inp : InsertCategory) (now : Nat) :
    Category × State :=
  let id := s.categoryId
  let newCategory : Category :=
    { id := id
      name := inp.name
      storeId := inp.storeId
      createdAt := now }
  (newCategory,
   { s with categories := mapSet Category.id s.categories id newCategory
            categoryId := s.categoryId + 1 })

/-- `createShopOwner(shopOwner)`: next id, Stripe fields null;
`subscriptionExpiresAt || null` is the identity on the option since a
`Date` object is always truthy. -/
def createShopOwner (s : State) (inp : InsertShopOwner) : ShopOwner × State :=
  let id := s.shopOwnerId
  let newOwner : ShopOwner :=
    { id := id
      userId := inp.userId
      storeId := inp.storeId
      subscriptionStatus := inp.subscriptionStatus
      subscriptionExpiresAt := inp.subscriptionExpiresAt
      stripeCustomerId := none
      stripePriceId := none
      stripeSubscriptionId := none }
  (newOwner,
   { s with shopOwners := mapSet ShopOwner.id s.shopOwners id newOwner
            shopOwnerId := s.shopOwnerId + 1 })

/-- `createCustomer(customer)`: next id, `address`/`phone` defaulted with
`|| null`. -/
def createCustomer (s : State) (inp : InsertCustomer) : Customer × State :=
  let id := s.customerId
  let newCustomer : Customer :=
    { id := id
      userId := inp.userId
      address := jsStrOrNull inp.address
      phone := jsStrOrNull inp.phone }
  (newCustomer,
   { s with customers := mapSet Customer.id s.customers id newCustomer
            customerId := s.customerId + 1 })

/-- `createOrder(order)`: next id, `customerPhone`/`customerAddress`/`notes`
defaulted with `|| null`, `whatsappSent: false`, `createdAt` stamped. -/
def createOrder (s : State) (inp : InsertOrder) (now : Nat) : Order × State :=
  let id := s.orderId
  let newOrder : Order :=
    { id := id
      storeId := inp.storeId
      customerId := inp.customerId
      customerName := inp.customerName
      customerPhone := jsStrOrNull inp.customerPhone
      customerAddress := jsStrOrNull inp.customerAddress
      deliveryMethod := inp.deliveryMethod
      notes := jsStrOrNull inp.notes
      total := inp.total
      whatsappSent := false
      createdAt := now }
  (newOrder,
   { s with orders := mapSet Order.id s.orders id newOrder
            orderId := s.orderId + 1 })

/-- `deleteStore(id)`. -/
def deleteStore (s : State) (id : Int) : Bool × State :=
  let r := mapDelete Store.id s.stores id
  (r.2, { s with stores := r.1 })

/-- `deleteCategory(id)`. -/
def deleteCategory (s : State) (id : Int) : Bool × State :=
  let r := mapDelete Category.id s.categories id
  (r.2, { s with categories := r.1 })

/-- `updateStripeCustomerId(userId, stripeCustomerId)`: throws
`'Usuário não encontrado'` when the `User` record is absent; otherwise
sets only `stripeCustomerId` on the linked `ShopOwner` (when one exists)
and returns the user. -/
def updateStripeCustomerId (s : State) (userId : Int) (cid : String) :
    Except String (User × State) :=
  match getUser s userId with
  | none => Except.error "Usuário não encontrado"
  | some user =>
      match getShopOwnerByUserId s userId with
      | none => Except.ok (user, s)
      | some owner =>
          let updated : ShopOwner := { owner with stripeCustomerId := some cid }
          Except.ok
            (user, { s with shopOwners := mapSet ShopOwner.id s.shopOwners updated.id updated })

/-- `updateUserStripeInfo(userId, info)`: returns the `undefined` sentinel
when no `ShopOwner` has the given `userId`; otherwise stores the Stripe
ids, sets `subscriptionStatus = "active"` and `subscriptionExpiresAt =
now + 30 days`. -/
def updateUserStripeInfo (s : State) (userId : Int) (customerId : String)
    (subscriptionId : String) (now : Nat) : Option ShopOwner × State :=
  match getShopOwnerByUserId s userId with
  | none => (none, s)
  | some owner =>
      let updated : ShopOwner :=
        { owner with
            stripeCustomerId := some customerId
            stripeSubscriptionId := some subscriptionId
            subscriptionStatus := "active"
            subscriptionExpiresAt := some (now + 30 * 24 * 60 * 60 * 1000) }
      (some updated,
       { s with shopOwners := mapSet ShopOwner.id s.shopOwners updated.id updated })

/-- One step of an interleaved sequence of creates and deletes: every
create operation of the store, and every delete operation it offers
(stores, categories, products, carts, cart items — the other entity kinds
have no delete operation in the interface). Used to state identifier
monotonicity for every entity kind. -/
inductive Op where
  | createUser (inp : InsertUser) (now : Nat)
  | createStore (inp : InsertStore) (now : Nat)
  | createCategory (inp : InsertCategory) (now : Nat)
  | createProduct (inp : InsertProduct) (now : Nat)
  | createShopOwner (inp : InsertShopOwner)
  | createCustomer (inp : InsertCustomer)
  | createCart (inp : InsertCart) (now : Nat)
  | createCartItem (inp : InsertCartItem) (now : Nat)
  | createOrder (inp : InsertOrder) (now : Nat)
  | createOrderItem (inp : InsertOrderItem)
  | delStore (id : Int)
  | delCategory (id : Int)
  | delProduct (id : Int)
  | delCart (id : Int)
  | delCartItem (id : Int) (now : Nat)
deriving DecidableEq

/-- Apply one `Op`. -/
def step (s : State) : Op → State
  | Op.createUser inp now => (createUser s inp now).2
  | Op.createStore inp now => (createStore s inp now).2
  | Op.createCategory inp now => (createCategory s inp now).2
  | Op.createProduct inp now => (createProduct s inp now).2
  | Op.createShopOwner inp => (createShopOwner s inp).2
  | Op.createCustomer inp => (createCustomer s inp).2
  | Op.createCart inp now => (createCart s inp now).2
  | Op.createCartItem inp now => (createCartItem s inp now).2
  | Op.createOrder inp now => (createOrder s inp now).2
  | Op.createOrderItem inp => (createOrderItem s inp).2
  | Op.delStore i => (deleteStore s i).2
  | Op.delCategory i => (deleteCategory s i).2
  | Op.delProduct i => (deleteProduct s i).2
  | Op.delCart i => (deleteCart s i).2
  | Op.delCartItem i now => (deleteCartItem s i now).2

/-- Run a sequence of `Op`s. -/
def opRun (s : State) : List Op → State
  | [] => s
  | op :: ops => opRun (step s op) ops

/-- Whether an op is a create of the given entity kind. -/
def isCreateUser : Op → Bool
  | Op.createUser _ _ => true
  | _ => false

/-- Whether an op is a store create. -/
def isCreateStore : Op → Bool
  | Op.createStore _ _ => true
  | _ => false

/-- Whether an op is a category create. -/
def isCreateCategory : Op → Bool
  | Op.createCategory _ _ => true
  | _ => false

/-- Whether an op is a product create. -/
def isCreateProduct : Op → Bool
  | Op.createProduct _ _ => true
  | _ => false

/-- Whether an op is a shop-owner create. -/
def isCreateShopOwner : Op → Bool
  | Op.createShopOwner _ => true
  | _ => false

/-- Whether an op is a customer create. -/
def isCreateCustomer : Op → Bool
  | Op.createCustomer _ => true
  | _ => false

/-- Whether an op is a cart create. -/
def isCreateCart : Op → Bool
  | Op.createCart _ _ => true
  | _ => false

/-- Whether an op is a cart-item create. -/
def isCreateCartItem : Op → Bool
  | Op.createCartItem _ _ => true
  | _ => false

/-- Whether an op is an order create. -/
def isCreateOrder : Op → Bool
  | Op.createOrder _ _ => true
  | _ => false

/-- Whether an op is an order-item create. -/
def isCreateOrderItem : Op → Bool
  | Op.createOrderItem _ => true
  | _ => false

/-- The ids handed out, for one entity kind (given its counter projection
`ctr` and create recognizer `isC`), by the creates of an op sequence, in
call order: each create of the kind assigns the counter value current when
it runs. -/
def createdIdsBy (ctr : State → Int) (isC : Op → Bool) (s : State) :
    List Op → List Int
  | [] => []
  | op :: ops =>
      if isC op then ctr s :: createdIdsBy ctr isC (step s op) ops
      else createdIdsBy ctr isC (step s op) ops

/-- Number of creates of one kind in an op sequence. -/
def numCreatesBy (isC : Op → Bool) (ops : List Op) : Nat :=
  (ops.filter isC).length

/-- Counter invariant for one entity kind: every stored id is below the
next id to be assigned. It holds for `initState` and is preserved by every
operation. -/
def InvBy {α : Type} (idOf : α → Int) (coll : State → List α)
    (ctr : State → Int) (s : State) : Prop :=
  ∀ x ∈ coll s, idOf x < ctr s

/-- Identifier monotonicity for one entity kind: over any op sequence
(creates of all kinds interleaved with deletes of all kinds) the kind's
created ids are strictly increasing (hence pairwise distinct) and number
exactly its creates; and an id present in the kind's collection at any
point — in particular one about to be deleted — is never handed out to a
later create of the kind. -/
def KindMonotone {α : Type} (idOf : α → Int) (coll : State → List α)
    (ctr : State → Int) (isC : Op → Bool) : Prop :=
  (∀ (s : State) (ops : List Op),
      List.Pairwise (· < ·) (createdIdsBy ctr isC s ops) ∧
      (createdIdsBy ctr isC s ops).length = numCreatesBy isC ops) ∧
  (∀ (s : State) (ops₁ : List Op) (d : Int) (op : Op) (ops₂ : List Op),
      InvBy idOf coll ctr s → isC op = false →
      (mapGet idOf (coll (opRun s ops₁)) d).isSome = true →
      d ∉ createdIdsBy ctr isC (step (opRun s ops₁) op) ops₂)

/-! Concrete fixture states used by counterexamples and witnesses. -/

/-- A concrete user with id 1. -/
def sampleUser1 : User :=
  { id := 1, username := "u1", password := "pw", email := "u1@mail.com",
    name := "U One", role := "shopowner", createdAt := 0 }

/-- A concrete shop owner (userId 1) still on a trial subscription. -/
def ownerTrial : ShopOwner :=
  { id := 1, userId := 1, storeId := 1, subscriptionStatus := "trial",
    subscriptionExpiresAt := none, stripeCustomerId := none,
    stripePriceId := none, stripeSubscriptionId := none }

/-- A concrete product with id 1 in store 1. -/
def productA : Product :=
  { id := 1, name := "A", price := 10, description := some "d", imageUrl := none,
    storeId := 1, categoryId := some 7, active := true, createdAt := 0, updatedAt := 0 }

/-- State holding one user and no shop owners. -/
def stateUserOnly : State :=
  { initState with users := [sampleUser1], userId := 2 }

/-- State holding one user and its linked trial shop owner. -/
def stateOwner : State :=
  { initState with users := [sampleUser1], shopOwners := [ownerTrial],
                   userId := 2, shopOwnerId := 2 }

/-- State holding the single product `productA`. -/
def stateProd : State :=
  { initState with products := [productA], productId := 2 }

/-- A partial product update supplying only the key `storeId`. -/
def patchStoreId99 : ProductPatch := { storeId := some 99 }

/-- A concrete insert input that explicitly supplies `active = false`. -/
def insP : InsertProduct :=
  { name := "P", price := 5, description := none, imageUrl := none,
    storeId := 1, categoryId := none, active := some false }

/-- Cascade-delete scenario, step 1: a cart created in the fresh store. -/
def cartScenario1 : State := (createCart initState { customerId := 1, storeId := 1 } 0).2

/-- Step 2: first item in cart 1. -/
def cartScenario2 : State :=
  (createCartItem cartScenario1 { cartId := 1, productId := 3, quantity := 2 } 1).2

/-- Step 3: second item in cart 1. -/
def cartScenario3 : State :=
  (createCartItem cartScenario2 { cartId := 1, productId := 4, quantity := 1 } 2).2

/-! Generic lemmas about the map model. -/

theorem find_replace {α : Type} (idOf : α → Int) (m : List α) (k : Int) (v : α)
    (hv : idOf v = k) (hex : ∃ x ∈ m, idOf x = k) :
    (m.map (fun x => if idOf x == k then v else x)).find? (fun y => idOf y == k) = some v := by
  induction m with
  | nil =>
      obtain ⟨x, hx, _⟩ := hex
      cases hx
  | cons a t ih =>
      by_cases ha : idOf a = k
      · simp [List.find?, ha, hv, -List.find?_map]
      · obtain ⟨x, hx, hxk⟩ := hex
        rcases List.mem_cons.mp hx with rfl | hxt
        · exact absurd hxk ha
        · have hpa : (idOf a == k) = false := by simp [ha]
          simpa [List.find?, ha, hpa, -List.find?_map] using ih ⟨x, hxt, hxk⟩

theorem mapGet_mapSet_self {α : Type} (idOf : α → Int) (m : List α) (k : Int) (v : α)
    (hv : idOf v = k) (x : α) (hx : x ∈ m) (hxk : idOf x = k) :
    mapGet idOf (mapSet idOf m k v) k = some v := by
  have hs : (m.find? (fun y => idOf y == k)).isSome := by
    rw [List.find?_isSome]
    exact ⟨x, hx, by simp [hxk]⟩
  unfold mapGet mapSet
  rw [if_pos hs]
  exact find_replace idOf m k v hv ⟨x, hx, hxk⟩

theorem mem_mapSet {α : Type} (idOf : α → Int) (m : List α) (k : Int) (v : α)
    (x : α) (hx : x ∈ mapSet idOf m k v) : x ∈ m ∨ x = v := by
  unfold mapSet at hx
  by_cases h : (m.find? (fun y => idOf y == k)).isSome
  · rw [if_pos h] at hx
    obtain ⟨a, ha, hax⟩ := List.mem_map.mp hx
    by_cases hk : (idOf a == k) = true
    · right
      rw [if_pos hk] at hax
      exact hax.symm
    · left
      rw [if_neg hk] at hax
      exact hax ▸ ha
  · rw [if_neg h] at hx
    rcases List.mem_append.mp hx with h1 | h2
    · exact Or.inl h1
    · exact Or.inr (List.mem_singleton.mp h2)

/-! Lemmas for identifier monotonicity. -/

theorem inv_create {α : Type} (idOf : α → Int) (m : List α) (c : Int) (v : α)
    (hv : idOf v = c) (h : ∀ x ∈ m, idOf x < c) :
    ∀ x ∈ mapSet idOf m c v, idOf x < c + 1 := by
  intro x hx
  rcases mem_mapSet idOf m c v x hx with h1 | h2
  · have := h x h1
    omega
  · rw [h2, hv]
    omega

theorem inv_set_member {α : Type} (idOf : α → Int) (m : List α) (c k : Int) (v : α)
    (hvk : idOf v < c) (h : ∀ x ∈ m, idOf x < c) :
    ∀ x ∈ mapSet idOf m k v, idOf x < c := by
  intro x hx
  rcases mem_mapSet idOf m k v x hx with h1 | h2
  · exact h x h1
  · rw [h2]
    exact hvk

theorem createCartItem_counters (s : State) (inp : InsertCartItem) (now : Nat) :
    ((createCartItem s inp now).2.userId = s.userId) ∧
    ((createCartItem s inp now).2.storeId = s.storeId) ∧
    ((createCartItem s inp now).2.categoryId = s.categoryId) ∧
    ((createCartItem s inp now).2.productId = s.productId) ∧
    ((createCartItem s inp now).2.shopOwnerId = s.shopOwnerId) ∧
    ((createCartItem s inp now).2.customerId = s.customerId) ∧
    ((createCartItem s inp now).2.cartId = s.cartId) ∧
    ((createCartItem s inp now).2.cartItemId = s.cartItemId + 1) ∧
    ((createCartItem s inp now).2.orderId = s.orderId) ∧
    ((createCartItem s inp now).2.orderItemId = s.orderItemId) := by
  unfold createCartItem
  cases mapGet Cart.id s.carts inp.cartId <;>
    exact ⟨rfl, rfl, rfl, rfl, rfl, rfl, rfl, rfl, rfl, rfl⟩

theorem deleteCartItem_counters (s : State) (i : Int) (now : Nat) :
    ((deleteCartItem s i now).2.userId = s.userId) ∧
    ((deleteCartItem s i now).2.storeId = s.storeId) ∧
    ((deleteCartItem s i now).2.categoryId = s.categoryId) ∧
    ((deleteCartItem s i now).2.productId = s.productId) ∧
    ((deleteCartItem s i now).2.shopOwnerId = s.shopOwnerId) ∧
    ((deleteCartItem s i now).2.customerId = s.customerId) ∧
    ((deleteCartItem s i now).2.cartId = s.cartId) ∧
    ((deleteCartItem s i now).2.cartItemId = s.cartItemId) ∧
    ((deleteCartItem s i now).2.orderId = s.orderId) ∧
    ((deleteCartItem s i now).2.orderItemId = s.orderItemId) := by
  unfold deleteCartItem
  cases mapGet CartItem.id s.cartItems i with
  | none => exact ⟨rfl, rfl, rfl, rfl, rfl, rfl, rfl, rfl, rfl, rfl⟩
  | some item =>
      dsimp only
      cases mapGet Cart.id s.carts item.cartId <;>
        exact ⟨rfl, rfl, rfl, rfl, rfl, rfl, rfl, rfl, rfl, rfl⟩

theorem createCartItem_inv (s : State) (inp : InsertCartItem) (now : Nat) :
    (InvBy User.id State.users State.userId s →
      InvBy User.id State.users State.userId (createCartItem s inp now).2) ∧
    (InvBy Store.id State.stores State.storeId s →
      InvBy Store.id State.stores State.storeId (createCartItem s inp now).2) ∧
    (InvBy Category.id State.categories State.categoryId s →
      InvBy Category.id State.categories State.categoryId (createCartItem s inp now).2) ∧
    (InvBy Product.id State.products State.productId s →
      InvBy Product.id State.products State.productId (createCartItem s inp now).2) ∧
    (InvBy ShopOwner.id State.shopOwners State.shopOwnerId s →
      InvBy ShopOwner.id State.shopOwners State.shopOwnerId (createCartItem s inp now).2) ∧
    (InvBy Customer.id State.customers State.customerId s →
      InvBy Customer.id State.customers State.customerId (createCartItem s inp now).2) ∧
    (InvBy Order.id State.orders State.orderId s →
      InvBy Order.id State.orders State.orderId (createCartItem s inp now).2) ∧
    (InvBy OrderItem.id State.orderItems State.orderItemId s →
      InvBy OrderItem.id State.orderItems State.orderItemId (createCartItem s inp now).2) ∧
    (InvBy Cart.id State.carts State.cartId s →
      InvBy Cart.id State.carts State.cartId (createCartItem s inp now).2) ∧
    (InvBy CartItem.id State.cartItems State.cartItemId s →
      InvBy CartItem.id State.cartItems State.cartItemId (createCartItem s inp now).2) := by
  unfold createCartItem
  cases hm : mapGet Cart.id s.carts inp.cartId with
  | none =>
      exact ⟨fun h => h, fun h => h, fun h => h, fun h => h, fun h => h,
             fun h => h, fun h => h, fun h => h, fun h => h,
             fun h => inv_create CartItem.id s.cartItems s.cartItemId _ rfl h⟩
  | some cart =>
      refine ⟨fun h => h, fun h => h, fun h => h, fun h => h, fun h => h,
              fun h => h, fun h => h, fun h => h, ?_, ?_⟩
      · intro h
        exact inv_set_member Cart.id s.carts s.cartId cart.id
          { cart with updatedAt := now } (h cart (List.mem_of_find?_eq_some hm)) h
      · intro h
        exact inv_create CartItem.id s.cartItems s.cartItemId _ rfl h

theorem deleteCartItem_inv (s : State) (i : Int) (now : Nat) :
    (InvBy User.id State.users State.userId s →
      InvBy User.id State.users State.userId (deleteCartItem s i now).2) ∧
    (InvBy Store.id State.stores State.storeId s →
      InvBy Store.id State.stores State.storeId (deleteCartItem s i now).2) ∧
    (InvBy Category.id State.categories State.categoryId s →
      InvBy Category.id State.categories State.categoryId (deleteCartItem s i now).2) ∧
    (InvBy Product.id State.products State.productId s →
      InvBy Product.id State.products State.productId (deleteCartItem s i now).2) ∧
    (InvBy ShopOwner.id State.shopOwners State.shopOwnerId s →
      InvBy ShopOwner.id State.shopOwners State.shopOwnerId (deleteCartItem s i now).2) ∧
    (InvBy Customer.id State.customers State.customerId s →
      InvBy Customer.id State.customers State.customerId (deleteCartItem s i now).2) ∧
    (InvBy Order.id State.orders State.orderId s →
      InvBy Order.id State.orders State.orderId (deleteCartItem s i now).2) ∧
    (InvBy OrderItem.id State.orderItems State.orderItemId s →
      InvBy OrderItem.id State.orderItems State.orderItemId (deleteCartItem s i now).2) ∧
    (InvBy Cart.id State.carts State.cartId s →
      InvBy Cart.id State.carts State.cartId (deleteCartItem s i now).2) ∧
    (InvBy CartItem.id State.cartItems State.cartItemId s →
      InvBy CartItem.id State.cartItems State.cartItemId (deleteCartItem s i now).2) := by
  unfold deleteCartItem
  cases hm : mapGet CartItem.id s.cartItems i with
  | none =>
      exact ⟨fun h => h, fun h => h, fun h => h, fun h => h, fun h => h,
             fun h => h, fun h => h, fun h => h, fun h => h, fun h => h⟩
  | some item =>
      dsimp only
      cases hm2 : mapGet Cart.id s.carts item.cartId with
      | none =>
          exact ⟨fun h => h, fun h => h, fun h => h, fun h => h, fun h => h,
                 fun h => h, fun h => h, fun h => h, fun h => h,
                 fun h x hx => h x (List.mem_of_mem_filter hx)⟩
      | some cart =>
          refine ⟨fun h => h, fun h => h, fun h => h, fun h => h, fun h => h,
                  fun h => h, fun h => h, fun h => h, ?_,
                  fun h x hx => h x (List.mem_of_mem_filter hx)⟩
          intro h
          exact inv_set_member Cart.id s.carts s.cartId cart.id
            { cart with updatedAt := now } (h cart (List.mem_of_find?_eq_some hm2)) h

theorem step_counters (s : State) (op : Op) :
    ((step s op).userId = if isCreateUser op then s.userId + 1 else s.userId) ∧
    ((step s op).storeId = if isCreateStore op then s.storeId + 1 else s.storeId) ∧
    ((step s op).categoryId = if isCreateCategory op then s.categoryId + 1 else s.categoryId) ∧
    ((step s op).productId = if isCreateProduct op then s.productId + 1 else s.productId) ∧
    ((step s op).shopOwnerId = if isCreateShopOwner op then s.shopOwnerId + 1 else s.shopOwnerId) ∧
    ((step s op).customerId = if isCreateCustomer op then s.customerId + 1 else s.customerId) ∧
    ((step s op).cartId = if isCreateCart op then s.cartId + 1 else s.cartId) ∧
    ((step s op).cartItemId = if isCreateCartItem op then s.cartItemId + 1 else s.cartItemId) ∧
    ((step s op).orderId = if isCreateOrder op then s.orderId + 1 else s.orderId) ∧
    ((step s op).orderItemId = if isCreateOrderItem op then s.orderItemId + 1 else s.orderItemId) := by
  cases op
  case createCartItem inp now => exact createCartItem_counters s inp now
  case delCartItem i now => exact deleteCartItem_counters s i now
  all_goals exact ⟨rfl, rfl, rfl, rfl, rfl, rfl, rfl, rfl, rfl, rfl⟩

theorem createdIdsBy_ge (ctr : State → Int) (isC : Op → Bool)
    (Hstep : ∀ (s : State) (op : Op), ctr (step s op) = if isC op then ctr s + 1 else ctr s) :
    ∀ (ops : List Op) (s : State), ∀ i ∈ createdIdsBy ctr isC s ops, ctr s ≤ i := by
  intro ops
  induction ops with
  | nil =>
      intro s i hi
      cases hi
  | cons op t ih =>
      intro s i hi
      rw [createdIdsBy] at hi
      have h2 := Hstep s op
      by_cases hc : isC op = true
      · rw [if_pos hc] at hi
        rw [if_pos hc] at h2
        rcases List.mem_cons.mp hi with rfl | hit
        · omega
        · have h1 := ih _ i hit
          omega
      · rw [if_neg hc] at hi
        rw [if_neg hc] at h2
        have h1 := ih _ i hi
        omega

theorem createdIdsBy_pairwise (ctr : State → Int) (isC : Op → Bool)
    (Hstep : ∀ (s : State) (op : Op), ctr (step s op) = if isC op then ctr s + 1 else ctr s) :
    ∀ (ops : List Op) (s : State), List.Pairwise (· < ·) (createdIdsBy ctr isC s ops) := by
  intro ops
  induction ops with
  | nil =>
      intro s
      exact List.Pairwise.nil
  | cons op t ih =>
      intro s
      rw [createdIdsBy]
      have h2 := Hstep s op
      by_cases hc : isC op = true
      · rw [if_pos hc]
        rw [if_pos hc] at h2
        refine List.Pairwise.cons ?_ (ih _)
        intro j hj
        have h1 := createdIdsBy_ge ctr isC Hstep t (step s op) j hj
        omega
      · rw [if_neg hc]
        exact ih _

theorem createdIdsBy_length (ctr : State → Int) (isC : Op → Bool) :
    ∀ (ops : List Op) (s : State),
      (createdIdsBy ctr isC s ops).length = numCreatesBy isC ops := by
  intro ops
  induction ops with
  | nil =>
      intro s
      rfl
  | cons op t ih =>
      intro s
      by_cases hc : isC op = true
      · rw [createdIdsBy, if_pos hc, List.length_cons, ih]
        unfold numCreatesBy
        rw [List.filter_cons, if_pos hc, List.length_cons]
      · rw [createdIdsBy, if_neg hc, ih]
        unfold numCreatesBy
        rw [List.filter_cons, if_neg hc]

theorem invBy_run {α : Type} (idOf : α → Int) (coll : State → List α) (ctr : State → Int)
    (Hinv : ∀ (s : State) (op : Op),
      InvBy idOf coll ctr s → InvBy idOf coll ctr (step s op)) :
    ∀ (ops : List Op) (s : State),
      InvBy idOf coll ctr s → InvBy idOf coll ctr (opRun s ops) := by
  intro ops
  induction ops with
  | nil =>
      intro s h
      exact h
  | cons op t ih =>
      intro s h
      exact ih _ (Hinv s op h)

theorem noReuseBy {α : Type} (idOf : α → Int) (coll : State → List α) (ctr : State → Int)
    (isC : Op → Bool)
    (Hstep : ∀ (s : State) (op : Op), ctr (step s op) = if isC op then ctr s + 1 else ctr s)
    (Hinv : ∀ (s : State) (op : Op),
      InvBy idOf coll ctr s → InvBy idOf coll ctr (step s op)) :
    ∀ (s : State) (ops₁ : List Op) (d : Int) (op : Op) (ops₂ : List Op),
      InvBy idOf coll ctr s → isC op = false →
      (mapGet idOf (coll (opRun s ops₁)) d).isSome = true →
      d ∉ createdIdsBy ctr isC (step (opRun s ops₁) op) ops₂ := by
  intro s ops₁ d op ops₂ hinv hnc hsome hmem
  have hinv1 := invBy_run idOf coll ctr Hinv ops₁ s hinv
  unfold mapGet at hsome
  obtain ⟨x, hx, hxd⟩ := List.find?_isSome.mp hsome
  have hxd2 : idOf x = d := by simpa using hxd
  have hlt : d < ctr (opRun s ops₁) := hxd2 ▸ hinv1 x hx
  have hge := createdIdsBy_ge ctr isC Hstep ops₂ (step (opRun s ops₁) op) d hmem
  have hnc2 : ¬ (isC op = true) := by simp [hnc]
  have h2 := Hstep (opRun s ops₁) op
  rw [if_neg hnc2] at h2
  omega

theorem kindMonotone_of {α : Type} (idOf : α → Int) (coll : State → List α)
    (ctr : State → Int) (isC : Op → Bool)
    (Hstep : ∀ (s : State) (op : Op), ctr (step s op) = if isC op then ctr s + 1 else ctr s)
    (Hinv : ∀ (s : State) (op : Op),
      InvBy idOf coll ctr s → InvBy idOf coll ctr (step s op)) :
    KindMonotone idOf coll ctr isC :=
  ⟨fun s ops =>
      ⟨createdIdsBy_pairwise ctr isC Hstep ops s, createdIdsBy_length ctr isC ops s⟩,
   noReuseBy idOf coll ctr isC Hstep Hinv⟩

theorem invUser_step : ∀ (s : State) (op : Op),
    InvBy User.id State.users State.userId s →
    InvBy User.id State.users State.userId (step s op) := by
  intro s op h
  cases op
  case createUser inp now =>
    exact inv_create User.id s.users s.userId _ rfl h
  case createCartItem inp now =>
    exact (createCartItem_inv s inp now).1 h
  case delCartItem i now =>
    exact (deleteCartItem_inv s i now).1 h
  all_goals exact h

theorem invStore_step : ∀ (s : State) (op : Op),
    InvBy Store.id State.stores State.storeId s →
    InvBy Store.id State.stores State.storeId (step s op) := by
  intro s op h
  cases op
  case createStore inp now =>
    exact inv_create Store.id s.stores s.storeId _ rfl h
  case delStore i =>
    intro x hx
    exact h x (List.mem_of_mem_filter hx)
  case createCartItem inp now =>
    exact (createCartItem_inv s inp now).2.1 h
  case delCartItem i now =>
    exact (deleteCartItem_inv s i now).2.1 h
  all_goals exact h

theorem invCategory_step : ∀ (s : State) (op : Op),
    InvBy Category.id State.categories State.categoryId s →
    InvBy Category.id State.categories State.categoryId (step s op) := by
  intro s op h
  cases op
  case createCategory inp now =>
    exact inv_create Category.id s.categories s.categoryId _ rfl h
  case delCategory i =>
    intro x hx
    exact h x (List.mem_of_mem_filter hx)
  case createCartItem inp now =>
    exact (createCartItem_inv s inp now).2.2.1 h
  case delCartItem i now =>
    exact (deleteCartItem_inv s i now).2.2.1 h
  all_goals exact h

theorem invProduct_step : ∀ (s : State) (op : Op),
    InvBy Product.id State.products State.productId s →
    InvBy Product.id State.products State.productId (step s op) := by
  intro s op h
  cases op
  case createProduct inp now =>
    exact inv_create Product.id s.products s.productId _ rfl h
  case delProduct i =>
    intro x hx
    exact h x (List.mem_of_mem_filter hx)
  case createCartItem inp now =>
    exact (createCartItem_inv s inp now).2.2.2.1 h
  case delCartItem i now =>
    exact (deleteCartItem_inv s i now).2.2.2.1 h
  all_goals exact h

theorem invShopOwner_step : ∀ (s : State) (op : Op),
    InvBy ShopOwner.id State.shopOwners State.shopOwnerId s →
    InvBy ShopOwner.id State.shopOwners State.shopOwnerId (step s op) := by
  intro s op h
  cases op
  case createShopOwner inp =>
    exact inv_create ShopOwner.id s.shopOwners s.shopOwnerId _ rfl h
  case createCartItem inp now =>
    exact (createCartItem_inv s inp now).2.2.2.2.1 h
  case delCartItem i now =>
    exact (deleteCartItem_inv s i now).2.2.2.2.1 h
  all_goals exact h

theorem invCustomer_step : ∀ (s : State) (op : Op),
    InvBy Customer.id State.customers State.customerId s →
    InvBy Customer.id State.customers State.customerId (step s op) := by
  intro s op h
  cases op
  case createCustomer inp =>
    exact inv_create Customer.id s.customers s.customerId _ rfl h
  case createCartItem inp now =>
    exact (createCartItem_inv s inp now).2.2.2.2.2.1 h
  case delCartItem i now =>
    exact (deleteCartItem_inv s i now).2.2.2.2.2.1 h
  all_goals exact h

theorem invCart_step : ∀ (s : State) (op : Op),
    InvBy Cart.id State.carts State.cartId s →
    InvBy Cart.id State.carts State.cartId (step s op) := by
  intro s op h
  cases op
  case createCart inp now =>
    exact inv_create Cart.id s.carts s.cartId _ rfl h
  case delCart i =>
    intro x hx
    exact h x (List.mem_of_mem_filter hx)
  case createCartItem inp now =>
    exact (createCartItem_inv s inp now).2.2.2.2.2.2.2.2.1 h
  case delCartItem i now =>
    exact (deleteCartItem_inv s i now).2.2.2.2.2.2.2.2.1 h
  all_goals exact h

theorem invCartItem_step : ∀ (s : State) (op : Op),
    InvBy CartItem.id State.cartItems State.cartItemId s →
    InvBy CartItem.id State.cartItems State.cartItemId (step s op) := by
  intro s op h
  cases op
  case createCartItem inp now =>
    exact (createCartItem_inv s inp now).2.2.2.2.2.2.2.2.2 h
  case delCartItem i now =>
    exact (deleteCartItem_inv s i now).2.2.2.2.2.2.2.2.2 h
  case delCart i =>
    intro x hx
    exact h x (List.mem_of_mem_filter hx)
  all_goals exact h

theorem invOrder_step : ∀ (s : State) (op : Op),
    InvBy Order.id State.orders State.orderId s →
    InvBy Order.id State.orders State.orderId (step s op) := by
  intro s op h
  cases op
  case createOrder inp now =>
    exact inv_create Order.id s.orders s.orderId _ rfl h
  case createCartItem inp now =>
    exact (createCartItem_inv s inp now).2.2.2.2.2.2.1 h
  case delCartItem i now =>
    exact (deleteCartItem_inv s i now).2.2.2.2.2.2.1 h
  all_goals exact h

theorem invOrderItem_step : ∀ (s : State) (op : Op),
    InvBy OrderItem.id State.orderItems State.orderItemId s →
    InvBy OrderItem.id State.orderItems State.orderItemId (step s op) := by
  intro s op h
  cases op
  case createOrderItem inp =>
    exact inv_create OrderItem.id s.orderItems s.orderItemId _ rfl h
  case createCartItem inp now =>
    exact (createCartItem_inv s inp now).2.2.2.2.2.2.2.1 h
  case delCartItem i now =>
    exact (deleteCartItem_inv s i now).2.2.2.2.2.2.2.1 h
  all_goals exact h

theorem createCartItem_assign (s : State) (inp : InsertCartItem) (now : Nat) :
    (createCartItem s inp now).1.id = s.cartItemId ∧
    (createCartItem s inp now).2.cartItemId = s.cartItemId + 1 := by
  unfold createCartItem
  cases mapGet Cart.id s.carts inp.cartId <;> exact ⟨rfl, rfl⟩

theorem deleteCart_no_items (s : State) (i : Int) :
    ((deleteCart s i).2.cartItems.filter (fun it => it.cartId == i)) = [] := by
  have e : (deleteCart s i).2.cartItems
      = s.cartItems.filter
          (fun x => !(s.cartItems.any (fun it => it.cartId == i && it.id == x.id))) := rfl
  rw [e, List.filter_eq_nil_iff]
  intro a ha
  have hmem : a ∈ s.cartItems := List.mem_of_mem_filter ha
  have hP := List.of_mem_filter ha
  intro hQ
  have hany : s.cartItems.any (fun it => it.cartId == i && it.id == a.id) = true := by
    rw [List.any_eq_true]
    exact ⟨a, hmem, by simp [hQ]⟩
  rw [hany] at hP
  cases hP

theorem self_mem_mapSet {α : Type} (idOf : α → Int) (m : List α) (k : Int) (v : α) :
    v ∈ mapSet idOf m k v := by
  unfold mapSet
  by_cases h : (m.find? (fun y => idOf y == k)).isSome
  · rw [if_pos h]
    obtain ⟨x, hx, hxk⟩ := List.find?_isSome.mp h
    refine List.mem_map.mpr ⟨x, hx, ?_⟩
    rw [if_pos hxk]
  · rw [if_neg h]
    exact List.mem_append.mpr (Or.inr (List.mem_singleton.mpr rfl))

/-- Helper for the C2 counterexample: the stored subscription status of shop
owner 1 after linking a Stripe customer id to user 1 of `stateOwner`. -/
def c2AfterStatus : Option String :=
  match updateStripeCustomerId stateOwner 1 "cus_1" with
  | Except.ok r => (mapGet ShopOwner.id r.2.shopOwners 1).map ShopOwner.subscriptionStatus
  | Except.error _ => none

/-- A partial product update supplying a new name and an explicit null
description. -/
def patchC3 : ProductPatch := { name := some "B", description := some none }

/-! The claims. -/

/-- Claim C1, counterexample: in a state with user 1 and no ShopOwner
records, `updateUserStripeInfo` returns the not-found sentinel and leaves
the state unchanged — its result type (`Option ShopOwner × State`, from the
source's `Promise<ShopOwner | undefined>` with no `throw` in its body) has
no error outcome, so no hard error is raised. -/
theorem c1_counterexample :
    getShopOwnerByUserId stateUserOnly 1 = none ∧
    updateUserStripeInfo stateUserOnly 1 "cus_1" "sub_1" 0 = (none, stateUserOnly) := by
  decide

/-- Claim C1 (amended): for a userId with no ShopOwner record,
`updateUserStripeInfo` returns the not-found sentinel with the state
unchanged; the integration-fault hard error is raised by
`updateStripeCustomerId`, and only when the User record itself is absent. -/
theorem c1_missing_owner_sentinel :
    (∀ (s : State) (uid : Int) (c sub : String) (now : Nat),
        getShopOwnerByUserId s uid = none →
        updateUserStripeInfo s uid c sub now = (none, s)) ∧
    (∀ (s : State) (uid : Int) (c : String),
        getUser s uid = none →
        updateStripeCustomerId s uid c = Except.error "Usuário não encontrado") := by
  constructor
  · intro s uid c sub now h
    unfold updateUserStripeInfo
    rw [h]
  · intro s uid c h
    unfold updateStripeCustomerId
    rw [h]

/-- Claim C1 witness: the amended statement evaluated at concrete inputs. -/
theorem c1_witness :
    getShopOwnerByUserId stateUserOnly 5 = none ∧
    updateUserStripeInfo stateUserOnly 5 "c1" "s1" 3 = (none, stateUserOnly) ∧
    getUser initState 1 = none ∧
    updateStripeCustomerId initState 1 "c1" = Except.error "Usuário não encontrado" :=
  ⟨by decide, c1_missing_owner_sentinel.1 stateUserOnly 5 "c1" "s1" 3 (by decide),
   by decide, c1_missing_owner_sentinel.2 initState 1 "c1" (by decide)⟩

/-- Claim C2, counterexample: `updateStripeCustomerId` succeeds for user 1 of
`stateOwner` (who has a ShopOwner record), yet the stored shop owner's
`subscriptionStatus` is still `"trial"`, not `"active"`. -/
theorem c2_counterexample :
    (updateStripeCustomerId stateOwner 1 "cus_1").toOption.isSome = true ∧
    c2AfterStatus = some "trial" ∧ "trial" ≠ "active" := by
  decide

/-- Claim C2 (amended): only `updateUserStripeInfo` sets
`subscriptionStatus = "active"` and `subscriptionExpiresAt = now + 30 days`
on the linked ShopOwner; `updateStripeCustomerId` sets only
`stripeCustomerId`, leaving every other ShopOwner field (in particular the
subscription status and expiry) unchanged. -/
theorem c2_linkage :
    (∀ (s : State) (uid : Int) (c sub : String) (now : Nat) (owner : ShopOwner),
        getShopOwnerByUserId s uid = some owner →
        (updateUserStripeInfo s uid c sub now).1 =
          some { owner with
                   stripeCustomerId := some c
                   stripeSubscriptionId := some sub
                   subscriptionStatus := "active"
                   subscriptionExpiresAt := some (now + 30 * 24 * 60 * 60 * 1000) }) ∧
    (∀ (s : State) (uid : Int) (c : String) (u : User) (owner : ShopOwner),
        getUser s uid = some u →
        getShopOwnerByUserId s uid = some owner →
        ∃ s2 : State,
          updateStripeCustomerId s uid c = Except.ok (u, s2) ∧
          mapGet ShopOwner.id s2.shopOwners owner.id =
            some { owner with stripeCustomerId := some c }) := by
  constructor
  · intro s uid c sub now owner h
    unfold updateUserStripeInfo
    rw [h]
  · intro s uid c u owner hu h
    have hmem : owner ∈ s.shopOwners := List.mem_of_find?_eq_some h
    unfold updateStripeCustomerId
    rw [hu, h]
    refine ⟨_, rfl, ?_⟩
    exact mapGet_mapSet_self ShopOwner.id s.shopOwners owner.id
      { owner with stripeCustomerId := some c } rfl owner hmem rfl

/-- Claim C2 witness: the amended statement evaluated at concrete inputs. -/
theorem c2_witness :
    getShopOwnerByUserId stateOwner 1 = some ownerTrial ∧
    (updateUserStripeInfo stateOwner 1 "cus_9" "sub_9" 100).1 =
      some { ownerTrial with
               stripeCustomerId := some "cus_9"
               stripeSubscriptionId := some "sub_9"
               subscriptionStatus := "active"
               subscriptionExpiresAt := some (100 + 30 * 24 * 60 * 60 * 1000) } :=
  ⟨by decide, c2_linkage.1 stateOwner 1 "cus_9" "sub_9" 100 ownerTrial (by decide)⟩

/-- Claim C3, counterexample: the partial `{storeId: 99}` supplies the key
`storeId`, but the product returned by `updateProduct` keeps its old
`storeId` 1 — not every key present in the partial is merged. -/
theorem c3_counterexample :
    patchStoreId99.storeId = some 99 ∧
    ((updateProduct stateProd 1 patchStoreId99 5).1.map Product.storeId) = some 1 ∧
    (1 : Int) ≠ 99 := by
  decide

/-- Claim C3 (amended): for an existing entity, `updateProduct` merges
exactly the supplied updatable keys (`name`, `price`, `description`,
`imageUrl`, `active`, `categoryId`, explicit null included), stamps
`updatedAt` with the call time, and ignores any supplied `id`, `storeId`,
`createdAt` or `updatedAt` key; `updateStore` does the same for its
updatable keys (`name`, `slug`, `logoUrl`, `whatsappNumber`,
`instagramUrl`, `facebookUrl`, `showSocialMedia`, `active`, `templateId`),
ignoring `id`, `createdAt`, `updatedAt`. -/
theorem c3_partial_merge :
    (∀ (s : State) (i : Int) (p : ProductPatch) (now : Nat) (e : Product),
        getProduct s i = some e →
        ∃ u : Product,
          (updateProduct s i p now).1 = some u ∧
          u.name = p.name.getD e.name ∧
          u.price = p.price.getD e.price ∧
          u.description = p.description.getD e.description ∧
          u.imageUrl = p.imageUrl.getD e.imageUrl ∧
          u.active = p.active.getD e.active ∧
          u.categoryId = p.categoryId.getD e.categoryId ∧
          u.updatedAt = now ∧
          u.id = e.id ∧ u.storeId = e.storeId ∧ u.createdAt = e.createdAt) ∧
    (∀ (s : State) (i : Int) (p : StorePatch) (now : Nat) (e : Store),
        mapGet Store.id s.stores i = some e →
        ∃ u : Store,
          (updateStore s i p now).1 = some u ∧
          u.name = p.name.getD e.name ∧
          u.slug = p.slug.getD e.slug ∧
          u.logoUrl = p.logoUrl.getD e.logoUrl ∧
          u.whatsappNumber = p.whatsappNumber.getD e.whatsappNumber ∧
          u.instagramUrl = p.instagramUrl.getD e.instagramUrl ∧
          u.facebookUrl = p.facebookUrl.getD e.facebookUrl ∧
          u.showSocialMedia = p.showSocialMedia.getD e.showSocialMedia ∧
          u.active = p.active.getD e.active ∧
          u.templateId = p.templateId.getD e.templateId ∧
          u.updatedAt = now ∧
          u.id = e.id ∧ u.createdAt = e.createdAt) := by
  constructor
  · intro s i p now e h
    unfold getProduct at h
    unfold updateProduct
    rw [h]
    exact ⟨_, rfl, rfl, rfl, rfl, rfl, rfl, rfl, rfl, rfl, rfl, rfl⟩
  · intro s i p now e h
    unfold updateStore
    rw [h]
    exact ⟨_, rfl, rfl, rfl, rfl, rfl, rfl, rfl, rfl, rfl, rfl, rfl, rfl, rfl⟩

/-- Claim C3 witness: the amended statement evaluated at a concrete state
and partial. -/
theorem c3_witness :
    getProduct stateProd 1 = some productA ∧
    (∃ u : Product,
      (updateProduct stateProd 1 patchC3 9).1 = some u ∧
      u.name = patchC3.name.getD productA.name ∧
      u.price = patchC3.price.getD productA.price ∧
      u.description = patchC3.description.getD productA.description ∧
      u.imageUrl = patchC3.imageUrl.getD productA.imageUrl ∧
      u.active = patchC3.active.getD productA.active ∧
      u.categoryId = patchC3.categoryId.getD productA.categoryId ∧
      u.updatedAt = 9 ∧
      u.id = productA.id ∧ u.storeId = productA.storeId ∧
      u.createdAt = productA.createdAt) :=
  ⟨by decide, c3_partial_merge.1 stateProd 1 patchC3 9 productA (by decide)⟩

/-- Claim C4, counterexample: `getProducts(0)` skips the filter (JS
truthiness of the optional argument), so `productA`, whose `storeId` is 1,
is returned even though 1 ≠ 0. -/
theorem c4_counterexample :
    productA ∈ getProducts stateProd (some 0) ∧ productA.storeId ≠ 0 := by
  decide

/-- Claim C4 (amended): for every NONZERO X, `getProducts(X)` returns
exactly the products whose `storeId` equals X, in collection (insertion)
order — a sublist of the product collection; `getProducts(0)` instead
returns the whole collection unfiltered. -/
theorem c4_filter_correctness :
    ∀ (s : State) (x : Int), x ≠ 0 →
      (∀ p : Product, p ∈ getProducts s (some x) ↔ p ∈ s.products ∧ p.storeId = x) ∧
      (getProducts s (some x)).Sublist s.products := by
  intro s x hx
  have e : getProducts s (some x) = s.products.filter (fun p => p.storeId == x) := by
    simp only [getProducts]
    rw [if_neg]
    simp [hx]
  constructor
  · intro p
    rw [e, List.mem_filter]
    simp
  · rw [e]
    exact List.filter_sublist _

/-- Claim C4 witness: the amended statement evaluated at X = 1. -/
theorem c4_witness :
    (productA ∈ getProducts stateProd (some 1) ↔
      productA ∈ stateProd.products ∧ productA.storeId = 1) ∧
    (getProducts stateProd (some 1)).Sublist stateProd.products :=
  ⟨(c4_filter_correctness stateProd 1 (by decide)).1 productA,
   (c4_filter_correctness stateProd 1 (by decide)).2⟩

/-- Claim C5: a partial update supplying only `price` changes only `price`
(and the `updatedAt` stamp); a partial update supplying `description: null`
clears the description and changes nothing else. -/
theorem c5_untouched_fields :
    ∀ (s : State) (i : Int) (e : Product) (v : Int) (now : Nat),
      getProduct s i = some e →
      (updateProduct s i { price := some v } now).1 =
        some { e with price := v, updatedAt := now } ∧
      (updateProduct s i { description := some none } now).1 =
        some { e with description := none, updatedAt := now } := by
  intro s i e v now h
  unfold getProduct at h
  unfold updateProduct
  rw [h]
  exact ⟨rfl, rfl⟩

/-- Claim C5 witness: evaluated on the stored product `productA`. -/
theorem c5_witness :
    getProduct stateProd 1 = some productA ∧
    (updateProduct stateProd 1 { price := some 12 } 7).1 =
      some { productA with price := 12, updatedAt := 7 } ∧
    (updateProduct stateProd 1 { description := some none } 7).1 =
      some { productA with description := none, updatedAt := 7 } :=
  ⟨by decide, c5_untouched_fields stateProd 1 productA 12 7 (by decide)⟩

/-- Claim C6: after `deleteCart(id)` no cart item referencing that cart id
remains, and the returned boolean reports whether the cart record was
present; in particular the concrete create-cart / two-items / delete
scenario ends with zero items referencing the cart. -/
theorem c6_cascade_delete :
    (∀ (s : State) (i : Int),
        (deleteCart s i).1 = (mapGet Cart.id s.carts i).isSome ∧
        ((deleteCart s i).2.cartItems.filter (fun it => it.cartId == i)) = []) ∧
    (cartScenario3.cartItems.filter (fun it => it.cartId == 1)).length = 2 ∧
    ((deleteCart cartScenario3 1).2.cartItems.filter (fun it => it.cartId == 1)) = [] ∧
    (deleteCart cartScenario3 1).1 = true :=
  ⟨fun s i => ⟨rfl, deleteCart_no_items s i⟩, by decide, by decide, by decide⟩

/-- Claim C7: for every entity kind, the id counter starts at 1; each
successful create of the kind hands out the counter value current at the
call and increments that counter; over any sequence of creates interleaved
with deletes of any entities, each kind's created ids are strictly
increasing (hence pairwise distinct) and number exactly its creates; and an
id present in a kind's collection — in particular one about to be deleted —
is never handed out to a later create of that kind. -/
theorem c7_id_monotonicity :
    (initState.userId = 1 ∧ initState.storeId = 1 ∧ initState.categoryId = 1 ∧
     initState.productId = 1 ∧ initState.shopOwnerId = 1 ∧ initState.customerId = 1 ∧
     initState.cartId = 1 ∧ initState.cartItemId = 1 ∧ initState.orderId = 1 ∧
     initState.orderItemId = 1) ∧
    ((∀ (s : State) (inp : InsertUser) (now : Nat),
        (createUser s inp now).1.id = s.userId ∧
        (createUser s inp now).2.userId = s.userId + 1) ∧
     (∀ (s : State) (inp : InsertStore) (now : Nat),
        (createStore s inp now).1.id = s.storeId ∧
        (createStore s inp now).2.storeId = s.storeId + 1) ∧
     (∀ (s : State) (inp : InsertCategory) (now : Nat),
        (createCategory s inp now).1.id = s.categoryId ∧
        (createCategory s inp now).2.categoryId = s.categoryId + 1) ∧
     (∀ (s : State) (inp : InsertProduct) (now : Nat),
        (createProduct s inp now).1.id = s.productId ∧
        (createProduct s inp now).2.productId = s.productId + 1) ∧
     (∀ (s : State) (inp : InsertShopOwner),
        (createShopOwner s inp).1.id = s.shopOwnerId ∧
        (createShopOwner s inp).2.shopOwnerId = s.shopOwnerId + 1) ∧
     (∀ (s : State) (inp : InsertCustomer),
        (createCustomer s inp).1.id = s.customerId ∧
        (createCustomer s inp).2.customerId = s.customerId + 1) ∧
     (∀ (s : State) (inp : InsertCart) (now : Nat),
        (createCart s inp now).1.id = s.cartId ∧
        (createCart s inp now).2.cartId = s.cartId + 1) ∧
     (∀ (s : State) (inp : InsertCartItem) (now : Nat),
        (createCartItem s inp now).1.id = s.cartItemId ∧
        (createCartItem s inp now).2.cartItemId = s.cartItemId + 1) ∧
     (∀ (s : State) (inp : InsertOrder) (now : Nat),
        (createOrder s inp now).1.id = s.orderId ∧
        (createOrder s inp now).2.orderId = s.orderId + 1) ∧
     (∀ (s : State) (inp : InsertOrderItem),
        (createOrderItem s inp).1.id = s.orderItemId ∧
        (createOrderItem s inp).2.orderItemId = s.orderItemId + 1)) ∧
    (KindMonotone User.id State.users State.userId isCreateUser ∧
     KindMonotone Store.id State.stores State.storeId isCreateStore ∧
     KindMonotone Category.id State.categories State.categoryId isCreateCategory ∧
     KindMonotone Product.id State.products State.productId isCreateProduct ∧
     KindMonotone ShopOwner.id State.shopOwners State.shopOwnerId isCreateShopOwner ∧
     KindMonotone Customer.id State.customers State.customerId isCreateCustomer ∧
     KindMonotone Cart.id State.carts State.cartId isCreateCart ∧
     KindMonotone CartItem.id State.cartItems State.cartItemId isCreateCartItem ∧
     KindMonotone Order.id State.orders State.orderId isCreateOrder ∧
     KindMonotone OrderItem.id State.orderItems State.orderItemId isCreateOrderItem) :=
  ⟨⟨rfl, rfl, rfl, rfl, rfl, rfl, rfl, rfl, rfl, rfl⟩,
   ⟨fun s inp now => ⟨rfl, rfl⟩,
    fun s inp now => ⟨rfl, rfl⟩,
    fun s inp now => ⟨rfl, rfl⟩,
    fun s inp now => ⟨rfl, rfl⟩,
    fun s inp => ⟨rfl, rfl⟩,
    fun s inp => ⟨rfl, rfl⟩,
    fun s inp now => ⟨rfl, rfl⟩,
    fun s inp now => createCartItem_assign s inp now,
    fun s inp now => ⟨rfl, rfl⟩,
    fun s inp => ⟨rfl, rfl⟩⟩,
   ⟨kindMonotone_of User.id State.users State.userId isCreateUser
      (fun s op => (step_counters s op).1) invUser_step,
    kindMonotone_of Store.id State.stores State.storeId isCreateStore
      (fun s op => (step_counters s op).2.1) invStore_step,
    kindMonotone_of Category.id State.categories State.categoryId isCreateCategory
      (fun s op => (step_counters s op).2.2.1) invCategory_step,
    kindMonotone_of Product.id State.products State.productId isCreateProduct
      (fun s op => (step_counters s op).2.2.2.1) invProduct_step,
    kindMonotone_of ShopOwner.id State.shopOwners State.shopOwnerId isCreateShopOwner
      (fun s op => (step_counters s op).2.2.2.2.1) invShopOwner_step,
    kindMonotone_of Customer.id State.customers State.customerId isCreateCustomer
      (fun s op => (step_counters s op).2.2.2.2.2.1) invCustomer_step,
    kindMonotone_of Cart.id State.carts State.cartId isCreateCart
      (fun s op => (step_counters s op).2.2.2.2.2.2.1) invCart_step,
    kindMonotone_of CartItem.id State.cartItems State.cartItemId isCreateCartItem
      (fun s op => (step_counters s op).2.2.2.2.2.2.2.1) invCartItem_step,
    kindMonotone_of Order.id State.orders State.orderId isCreateOrder
      (fun s op => (step_counters s op).2.2.2.2.2.2.2.2.1) invOrder_step,
    kindMonotone_of OrderItem.id State.orderItems State.orderItemId isCreateOrderItem
      (fun s op => (step_counters s op).2.2.2.2.2.2.2.2.2) invOrderItem_step⟩⟩

/-- Claim C7 witness: the product no-reuse part evaluated on a concrete
sequence (create id 1, delete id 1, create again → id 2 ≠ 1). -/
theorem c7_witness :
    InvBy Product.id State.products State.productId initState ∧
    isCreateProduct (Op.delProduct 1) = false ∧
    (mapGet Product.id ((opRun initState [Op.createProduct insP 0]).products) 1).isSome = true ∧
    1 ∉ createdIdsBy State.productId isCreateProduct
        (step (opRun initState [Op.createProduct insP 0]) (Op.delProduct 1))
        [Op.createProduct insP 4] := by
  have pinv : InvBy Product.id State.products State.productId initState := by
    intro x hx
    exact absurd hx (List.not_mem_nil x)
  exact ⟨pinv, by decide, by decide,
    (c7_id_monotonicity.2.2.2.2.2.1).2 initState [Op.createProduct insP 0] 1
      (Op.delProduct 1) [Op.createProduct insP 4] pinv (by decide) (by decide)⟩

/-- Claim C8: `createOrderItem` stores the given snapshot `productName` and
`price` verbatim (and the new item is in the stored collection), and
`updateProduct` never touches the order-item collection, so a later product
edit leaves every stored OrderItem unchanged. -/
theorem c8_order_item_snapshot :
    (∀ (s : State) (inp : InsertOrderItem),
        (createOrderItem s inp).1.productName = inp.productName ∧
        (createOrderItem s inp).1.price = inp.price ∧
        (createOrderItem s inp).1 ∈ (createOrderItem s inp).2.orderItems) ∧
    (∀ (s : State) (i : Int) (p : ProductPatch) (now : Nat),
        (updateProduct s i p now).2.orderItems = s.orderItems) := by
  constructor
  · intro s inp
    refine ⟨rfl, rfl, ?_⟩
    have e : (createOrderItem s inp).2.orderItems
        = mapSet OrderItem.id s.orderItems s.orderItemId (createOrderItem s inp).1 := rfl
    rw [e]
    exact self_mem_mapSet OrderItem.id s.orderItems s.orderItemId (createOrderItem s inp).1
  · intro s i p now
    unfold updateProduct
    cases hm : mapGet Product.id s.products i <;> rfl

/-- Claim C9: every update operation called with an id that has no match
returns the not-found sentinel and leaves the whole state unchanged. -/
theorem c9_not_found_no_mutation :
    (∀ (s : State) (i : Int) (c : CategoryPatch),
        mapGet Category.id s.categories i = none → updateCategory s i c = (none, s)) ∧
    (∀ (s : State) (i : Int) (d : ShopOwnerPatch),
        mapGet ShopOwner.id s.shopOwners i = none →
        updateShopOwnerSubscription s i d = (none, s)) ∧
    (∀ (s : State) (i : Int) (u : UserPatch),
        mapGet User.id s.users i = none → updateUser s i u = (none, s)) ∧
    (∀ (s : State) (i : Int) (c : CustomerPatch),
        mapGet Customer.id s.customers i = none → updateCustomer s i c = (none, s)) ∧
    (∀ (s : State) (i : Int) (p : ProductPatch) (now : Nat),
        mapGet Product.id s.products i = none → updateProduct s i p now = (none, s)) ∧
    (∀ (s : State) (i : Int) (p : StorePatch) (now : Nat),
        mapGet Store.id s.stores i = none → updateStore s i p now = (none, s)) ∧
    (∀ (s : State) (i : Int) (q : Int) (now : Nat),
        mapGet CartItem.id s.cartItems i = none → updateCartItem s i q now = (none, s)) ∧
    (∀ (s : State) (i : Int) (b : Bool),
        mapGet Order.id s.orders i = none → updateOrderWhatsappStatus s i b = (none, s)) := by
  refine ⟨?_, ?_, ?_, ?_, ?_, ?_, ?_, ?_⟩
  · intro s i c h
    unfold updateCategory
    rw [h]
  · intro s i d h
    unfold updateShopOwnerSubscription
    rw [h]
  · intro s i u h
    unfold updateUser
    rw [h]
  · intro s i c h
    unfold updateCustomer
    rw [h]
  · intro s i p now h
    unfold updateProduct
    rw [h]
  · intro s i p now h
    unfold updateStore
    rw [h]
  · intro s i q now h
    unfold updateCartItem
    rw [h]
  · intro s i b h
    unfold updateOrderWhatsappStatus
    rw [h]

/-- Claim C9 witness: two of the update operations evaluated at an absent
id of the fresh state. -/
theorem c9_witness :
    mapGet Category.id initState.categories 1 = none ∧
    updateCategory initState 1 {} = (none, initState) ∧
    mapGet ShopOwner.id initState.shopOwners 1 = none ∧
    updateShopOwnerSubscription initState 1 {} = (none, initState) :=
  ⟨by decide, c9_not_found_no_mutation.1 initState 1 {} (by decide),
   by decide, c9_not_found_no_mutation.2.1 initState 1 {} (by decide)⟩

/-- Claim C10: `createProduct` and `createStore` set `active := true` after
spreading the input, so the created entity is active for every input —
including inputs explicitly supplying `active = false`. -/
theorem c10_active_forced :
    ∀ (s : State) (inp : InsertProduct) (inps : InsertStore) (now : Nat),
      (createProduct s inp now).1.active = true ∧
      (createStore s inps now).1.active = true ∧
      (createProduct s { inp with active := some false } now).1.active = true ∧
      (createStore s { inps with active := some false } now).1.active = true :=
  fun s inp inps now => ⟨rfl, rfl, rfl, rfl⟩

end Storage



